import Mathlib

/-!
Verification of the storage-adapter core of the photo-sharing application.

The development shallowly embeds the three storage backends
(`local_storage_service.py`, `aws_storage_service.py`, `storage_service.py`)
and the boot-time backend selector of `app.py`.  Python strings are modelled
as lists of characters ordered by code point, byte contents as lists of
naturals, and each backend's remote or on-disk state as an explicit record
that the operations transform.  SDK and OS calls that can fail for reasons
outside the modelled state (network faults, transient service errors) take an
explicit fault flag; calls whose outcome is determined by the modelled state
(not-found conditions) derive it from the state.
-/

set_option linter.unusedVariables false

deriving instance DecidableEq for Except

/-- A Python string: a list of characters, compared by code point. -/
abbrev Str := List Char

/-- Python string comparison `a < b`: lexicographic by code point. -/
def pyStrLt : Str → Str → Bool
  | [], [] => false
  | [], _ :: _ => true
  | _ :: _, [] => false
  | a :: as, b :: bs => if a < b then true else if b < a then false else pyStrLt as bs

/-- A wall-clock timestamp at the granularity used by the services'
`strftime` format string, as produced by `datetime.fromtimestamp`. -/
structure PyDateTime where
  year : Nat
  month : Nat
  day : Nat
  hour : Nat
  minute : Nat
  second : Nat
deriving DecidableEq

/-- The two low decimal digits of a number, zero padded (format `%02d`
for values below 100). -/
def pad2 (n : Nat) : Str := [Nat.digitChar (n / 10 % 10), Nat.digitChar (n % 10)]

/-- The four low decimal digits of a number, zero padded (format `%04d`
for values below 10000). -/
def pad4 (n : Nat) : Str := pad2 (n / 100) ++ pad2 (n % 100)

/-- The formatted timestamp `strftime('%Y-%m-%d %H:%M:%S')` used by every
backend's listing code. -/
def strftimeYmdHMS (t : PyDateTime) : Str :=
  pad4 t.year ++ ('-' :: (pad2 t.month ++ ('-' :: (pad2 t.day ++ (' ' :: (pad2 t.hour ++
    (':' :: (pad2 t.minute ++ (':' :: pad2 t.second)))))))))

/-- Chronological (lexicographic field-wise) strict order on timestamps. -/
def pyDTLt (a b : PyDateTime) : Bool :=
  decide (a.year < b.year) || (decide (a.year = b.year) &&
    (decide (a.month < b.month) || (decide (a.month = b.month) &&
      (decide (a.day < b.day) || (decide (a.day = b.day) &&
        (decide (a.hour < b.hour) || (decide (a.hour = b.hour) &&
          (decide (a.minute < b.minute) || (decide (a.minute = b.minute) &&
            decide (a.second < b.second))))))))))

/-- Field ranges under which the `strftime` rendering is faithful; every
timestamp produced by a real clock satisfies these bounds. -/
def PyDateTime.InRange (t : PyDateTime) : Prop :=
  t.year < 10000 ∧ t.month < 100 ∧ t.day < 100 ∧ t.hour < 100 ∧ t.minute < 100 ∧
    t.second < 100

instance (t : PyDateTime) : Decidable t.InRange := by
  unfold PyDateTime.InRange; infer_instance

/-- Modelled from the Python standard library (an external collaborator used
by all three backends): the extension part of `posixpath.splitext` for
filenames without path separators.  The extension runs from the last dot,
provided some character before that dot is not itself a dot (so dotfiles such
as `.bashrc` have no extension). -/
def splitext_ext (name : Str) : Str :=
  let rev := name.reverse
  let afterDot := rev.takeWhile (fun c => c != '.')
  if afterDot.length = rev.length then []
  else if (rev.drop (afterDot.length + 1)).all (fun c => c == '.') then []
  else '.' :: afterDot.reverse

/-- Modelled from the Python standard library: the entries of
`mimetypes.types_map` relevant to this application (image formats accepted by
the web layer, plus common document types). -/
def types_map : List (Str × Str) :=
  [ (".png".data, "image/png".data),
    (".jpg".data, "image/jpeg".data),
    (".jpeg".data, "image/jpeg".data),
    (".gif".data, "image/gif".data),
    (".webp".data, "image/webp".data),
    (".txt".data, "text/plain".data),
    (".html".data, "text/html".data),
    (".json".data, "application/json".data),
    (".pdf".data, "application/pdf".data) ]

/-- Modelled from the Python standard library: `mimetypes.guess_type`,
restricted to the table above.  The lookup is case insensitive in the
extension. -/
def guess_type (name : Str) : Option Str :=
  types_map.lookup ((splitext_ext name).map Char.toLower)

/-- The content-type inference every backend performs before attaching or
reporting a MIME type: `mimetypes.guess_type` with the
`application/octet-stream` default. -/
def contentTypeFor (name : Str) : Str :=
  (guess_type name).getD ("application/octet-stream".data)

/-- The two call shapes `upload_file` accepts: a readable stream (an object
with a `read` attribute) or a raw bytes value.  A stream is modelled by the
byte content remaining to be read. -/
inductive FileStream where
  | stream (content : List Nat)
  | bytes (content : List Nat)
deriving DecidableEq

/-- The full byte content a backend obtains from either call shape
(`shutil.copyfileobj` for streams, a direct write for bytes). -/
def FileStream.readAll : FileStream → List Nat
  | .stream c => c
  | .bytes c => c

/-! ## Local filesystem backend (`local_storage_service.py`) -/

/-- One entry of the managed directory: a regular file or a subdirectory.
`created` models the filesystem creation/change timestamp `st_ctime` that
`os.stat` reports, already converted by `datetime.fromtimestamp`. -/
structure DirEntry where
  name : Str
  isDir : Bool
  content : List Nat
  created : PyDateTime
deriving DecidableEq

/-- The `LocalFileStorage` service: its configuration (`storage_path`,
`container_name`) together with the state of the directory
`full_path = storage_path/container_name` it manages.  `dirExists` records
whether that directory exists; `entries` its contents in `os.listdir`
enumeration order. -/
structure LocalFileStorage where
  storage_path : Str
  container_name : Str
  dirExists : Bool
  entries : List DirEntry
deriving DecidableEq

/-- OS-level errors the local backend can raise. -/
inductive OSErr where
  | fileNotFound
  | isADirectory
deriving DecidableEq

/-- First directory entry with the given name (how the OS resolves
`os.path.join(full_path, filename)`). -/
def findEntry : List DirEntry → Str → Option DirEntry
  | [], _ => none
  | e :: es, n => if e.name = n then some e else findEntry es n

/-- Effect of `open(path, 'wb')` + write: overwrite the existing entry in
place (its change time updates to the current time) or create a fresh file
entry. -/
def writeEntry : List DirEntry → Str → List Nat → PyDateTime → List DirEntry
  | [], n, c, t => [⟨n, false, c, t⟩]
  | e :: es, n, c, t => if e.name = n then ⟨n, false, c, t⟩ :: es else e :: writeEntry es n c t

/-- Effect of `os.remove(path)`: drop the entry with the given name. -/
def removeEntry : List DirEntry → Str → List DirEntry
  | [], _ => []
  | e :: es, n => if e.name = n then es else e :: removeEntry es n

/-- The string `f"/{storage_path}/{container_name}/{filename}"` the local
backend uses both as upload result and as `get_file_url` result. -/
def localUrl (st : LocalFileStorage) (filename : Str) : Str :=
  '/' :: (st.storage_path ++ ('/' :: (st.container_name ++ ('/' :: filename))))

/-- `LocalFileStorage.create_container`: `os.makedirs(full_path,
exist_ok=True)`, then return True.  Modelled without OS-level faults
(`makedirs` with `exist_ok` succeeds whether or not the directory exists). -/
def LocalFileStorage.create_container (st : LocalFileStorage) : Bool × LocalFileStorage :=
  (true, { st with dirExists := true })

/-- `LocalFileStorage.upload_file`: ensure the directory exists, then write
the full stream (or bytes value) to `full_path/filename`, overwriting any
existing file, and return the relative URL.  `open(path, 'wb')` raises if the
path names an existing subdirectory. -/
def LocalFileStorage.upload_file (st : LocalFileStorage) (file_stream : FileStream)
    (filename : Str) (now : PyDateTime) : Except OSErr (Str × LocalFileStorage) :=
  let st1 := (st.create_container).2
  if st1.entries.any (fun e => decide (e.name = filename) && e.isDir) then
    Except.error OSErr.isADirectory
  else
    let content := match file_stream with
      | FileStream.stream c => c
      | FileStream.bytes c => c
    Except.ok (localUrl st1 filename,
      { st1 with entries := writeEntry st1.entries filename content now })

/-- `LocalFileStorage.download_file`: raise `FileNotFoundError` if the path
does not exist, otherwise read the file's bytes (`open(path, 'rb')` raises if
the path is a directory). -/
def LocalFileStorage.download_file (st : LocalFileStorage) (filename : Str) :
    Except OSErr (List Nat) :=
  match findEntry st.entries filename with
  | none => Except.error OSErr.fileNotFound
  | some e => if e.isDir then Except.error OSErr.isADirectory else Except.ok e.content

/-- `LocalFileStorage.delete_file`: return False (without raising) if the
path does not exist, otherwise `os.remove` it and return True (`os.remove`
raises on a directory). -/
def LocalFileStorage.delete_file (st : LocalFileStorage) (filename : Str) :
    Except OSErr (Bool × LocalFileStorage) :=
  match findEntry st.entries filename with
  | none => Except.ok (false, st)
  | some e =>
    if e.isDir then Except.error OSErr.isADirectory
    else Except.ok (true, { st with entries := removeEntry st.entries filename })

/-- `LocalFileStorage.file_exists`: a direct `os.path.exists` check (true for
files and subdirectories alike). -/
def LocalFileStorage.file_exists (st : LocalFileStorage) (filename : Str) : Bool :=
  (findEntry st.entries filename).isSome

/-- The per-file dictionary every backend's listing produces. -/
structure FileInfo where
  name : Str
  url : Str
  size : Nat
  created : Str
  content_type : Str
deriving DecidableEq

/-- The dictionary `list_files` builds for one directory entry: name,
relative URL, `st_size`, formatted `st_ctime`, and the inferred content
type. -/
def LocalFileStorage.fileInfoOf (st : LocalFileStorage) (e : DirEntry) : FileInfo :=
  { name := e.name
    url := localUrl st e.name
    size := e.content.length
    created := strftimeYmdHMS e.created
    content_type := contentTypeFor e.name }

/-- The comparison `list.sort(key=lambda x: x['created'], reverse=True)`
sorts by: `a` may precede `b` exactly when `a`'s key is not below `b`'s. -/
def createdGE (a b : FileInfo) : Prop := pyStrLt a.created b.created = false

instance : DecidableRel createdGE := fun a b => instDecidableEqBool _ _

/-- Strictly-newer-first ordering on listing entries (the strict part of
`createdGE`): `a` was created strictly later than `b`. -/
def createdGT (a b : FileInfo) : Prop := pyStrLt b.created a.created = true

/-- `LocalFileStorage.list_files`: empty when the directory does not exist;
otherwise the regular files (subdirectories skipped), each mapped to its
dictionary, stably sorted newest first by the formatted creation time
(Python's stable `list.sort` with `reverse=True`, modelled by a stable
insertion sort under the reversed comparison). -/
def LocalFileStorage.list_files (st : LocalFileStorage) : List FileInfo :=
  if st.dirExists = false then []
  else
    List.insertionSort createdGE ((st.entries.filter (fun e => !e.isDir)).map st.fileInfoOf)

/-- `LocalFileStorage.get_file_url`: the relative path, built from the
configuration and the filename alone; the `expiry_hours` parameter is kept
only for signature compatibility with the Azure version. -/
def LocalFileStorage.get_file_url (st : LocalFileStorage) (filename : Str)
    (expiry_hours : Nat) : Str :=
  localUrl st filename

/-! ## AWS S3 backend (`aws_storage_service.py`) -/

/-- Errors surfaced by the cloud SDK calls: the backend-specific not-found
condition (404 `ClientError` / `NoSuchKey` for S3, `ResourceNotFoundError`
for Azure), or a transient failure (network fault, throttling, 5xx). -/
inductive SDKErr where
  | notFound
  | transient
deriving DecidableEq

/-- One object stored in the S3 bucket, with the metadata this service
attaches on upload. -/
structure S3Object where
  key : Str
  content : List Nat
  contentType : Str
  cacheControl : Str
  lastModified : PyDateTime
deriving DecidableEq

/-- The `AWSS3Storage` service: its configuration (bucket and region names)
together with the remote bucket state its calls read and write. -/
structure AWSS3Storage where
  bucket_name : Str
  region_name : Str
  bucketExists : Bool
  policySet : Bool
  publicAccessBlockSet : Bool
  objects : List S3Object
deriving DecidableEq

/-- First stored object with the given key. -/
def findObject : List S3Object → Str → Option S3Object
  | [], _ => none
  | o :: os, k => if o.key = k then some o else findObject os k

/-- Effect of `upload_fileobj`: overwrite the object under this key or store
a fresh one (S3 keys are unique; last writer wins). -/
def putObject : List S3Object → S3Object → List S3Object
  | [], o => [o]
  | p :: ps, o => if p.key = o.key then o :: ps else p :: putObject ps o

/-- Effect of `delete_object`: drop the object under this key; deleting an
absent key is a success and leaves the bucket unchanged. -/
def dropObject : List S3Object → Str → List S3Object
  | [], _ => []
  | o :: os, k => if o.key = k then os else o :: dropObject os k

/-- The deterministic public URL formula
`https://{bucket}.s3.{region}.amazonaws.com/{filename}` used by upload,
listing and `get_file_url`. -/
def awsUrl (st : AWSS3Storage) (filename : Str) : Str :=
  "https://".data ++ (st.bucket_name ++ (".s3.".data ++ (st.region_name ++
    (".amazonaws.com/".data ++ filename))))

/-- `AWSS3Storage.create_container`: `head_bucket` first; when it reports
404, create the bucket, then set the public-read bucket policy and the
public-access-block configuration.  Either path returns True. -/
def AWSS3Storage.create_container (st : AWSS3Storage) : Bool × AWSS3Storage :=
  if st.bucketExists then (true, st)
  else (true, { st with bucketExists := true, policySet := true, publicAccessBlockSet := true })

/-- `AWSS3Storage.upload_file`: infer the content type from the filename,
seek the stream to the beginning, upload it with the content type and a
year-long `CacheControl` header, and return the public URL.  A raw bytes
value is passed straight through by `upload_fileobj`. -/
def AWSS3Storage.upload_file (st : AWSS3Storage) (file_stream : FileStream)
    (filename : Str) (now : PyDateTime) : Str × AWSS3Storage :=
  let content_type := contentTypeFor filename
  let obj : S3Object := ⟨filename, file_stream.readAll, content_type, "max-age=31536000".data, now⟩
  (awsUrl st filename, { st with objects := putObject st.objects obj })

/-- `AWSS3Storage.download_file`: `get_object` returns the body, raising
`NoSuchKey` when absent; any error is re-raised. -/
def AWSS3Storage.download_file (st : AWSS3Storage) (filename : Str) :
    Except SDKErr (List Nat) :=
  match findObject st.objects filename with
  | some o => Except.ok o.content
  | none => Except.error SDKErr.notFound

/-- `AWSS3Storage.delete_file`: `delete_object`, then return True; any
exception the call raises is printed and re-raised.  `sdkFault` injects a
transient SDK failure; S3's `delete_object` succeeds even when the key is
absent. -/
def AWSS3Storage.delete_file (st : AWSS3Storage) (filename : Str) (sdkFault : Bool) :
    Except SDKErr (Bool × AWSS3Storage) :=
  if sdkFault then Except.error SDKErr.transient
  else Except.ok (true, { st with objects := dropObject st.objects filename })

/-- The `head_object` probe: a transient fault raises; otherwise the call
succeeds exactly when the key is present, raising the 404 `ClientError`
when it is not. -/
def AWSS3Storage.head_object (st : AWSS3Storage) (filename : Str) (sdkFault : Bool) :
    Except SDKErr Unit :=
  if sdkFault then Except.error SDKErr.transient
  else if (findObject st.objects filename).isSome then Except.ok ()
  else Except.error SDKErr.notFound

/-- `AWSS3Storage.file_exists`: True when `head_object` succeeds; every
`ClientError` (including transient service errors) and every other exception
is caught and mapped to False. -/
def AWSS3Storage.file_exists (st : AWSS3Storage) (filename : Str) (sdkFault : Bool) :
    Except SDKErr Bool :=
  match st.head_object filename sdkFault with
  | Except.ok _ => Except.ok true
  | Except.error _ => Except.ok false

/-- The dictionary `AWSS3Storage.list_files` builds for one object: key,
public URL, size, formatted `LastModified`, and the constant content type
string `image/*`. -/
def AWSS3Storage.fileInfoOf (st : AWSS3Storage) (o : S3Object) : FileInfo :=
  { name := o.key
    url := awsUrl st o.key
    size := o.content.length
    created := strftimeYmdHMS o.lastModified
    content_type := "image/*".data }

/-- `AWSS3Storage.list_files`: every object of the `list_objects_v2`
response, in the backend-native order, mapped to its dictionary. -/
def AWSS3Storage.list_files (st : AWSS3Storage) : List FileInfo :=
  st.objects.map st.fileInfoOf

/-- `AWSS3Storage.get_file_url`: the deterministic public URL (no expiry
parameter in the AWS variant). -/
def AWSS3Storage.get_file_url (st : AWSS3Storage) (filename : Str) : Str :=
  awsUrl st filename

/-! ## Azure Blob Storage backend (`storage_service.py`) -/

/-- One blob stored in the Azure container, with the content settings this
service attaches on upload. -/
structure AzureBlob where
  name : Str
  content : List Nat
  contentType : Str
  creationTime : PyDateTime
deriving DecidableEq

/-- The `AzureBlobStorage` service: its configuration (container name and
the container client's base URL, both derived from the connection string)
together with the remote container state. -/
structure AzureBlobStorage where
  container_name : Str
  containerUrl : Str
  containerExists : Bool
  blobs : List AzureBlob
deriving DecidableEq

/-- First stored blob with the given name. -/
def findBlob : List AzureBlob → Str → Option AzureBlob
  | [], _ => none
  | b :: bs, n => if b.name = n then some b else findBlob bs n

/-- Effect of `upload_blob(overwrite=True)`: overwrite the blob under this
name or store a fresh one. -/
def putBlob : List AzureBlob → AzureBlob → List AzureBlob
  | [], b => [b]
  | p :: ps, b => if p.name = b.name then b :: ps else p :: putBlob ps b

/-- Effect of `delete_blob` on a present blob: drop it. -/
def dropBlob : List AzureBlob → Str → List AzureBlob
  | [], _ => []
  | b :: bs, n => if b.name = n then bs else b :: dropBlob bs n

/-- The blob URL `f"{container_client.url}/{blob.name}"` (the blob client's
canonical URL). -/
def azureBlobUrl (st : AzureBlobStorage) (filename : Str) : Str :=
  st.containerUrl ++ ('/' :: filename)

/-- `AzureBlobStorage.create_container`: `create_container(public_access=
'blob')`, catching `ResourceExistsError` as success; both paths return
True. -/
def AzureBlobStorage.create_container (st : AzureBlobStorage) : Bool × AzureBlobStorage :=
  if st.containerExists then (true, st)
  else (true, { st with containerExists := true })

/-- `AzureBlobStorage.upload_file`: infer the content type from the
filename, upload with `overwrite=True` and those content settings, and
return the blob URL. -/
def AzureBlobStorage.upload_file (st : AzureBlobStorage) (file_stream : FileStream)
    (filename : Str) (now : PyDateTime) : Str × AzureBlobStorage :=
  let content_type := contentTypeFor filename
  (azureBlobUrl st filename,
    { st with blobs := putBlob st.blobs ⟨filename, file_stream.readAll, content_type, now⟩ })

/-- `AzureBlobStorage.download_file`: `download_blob().readall()`, with
`ResourceNotFoundError` re-raised when the blob is absent. -/
def AzureBlobStorage.download_file (st : AzureBlobStorage) (filename : Str) :
    Except SDKErr (List Nat) :=
  match findBlob st.blobs filename with
  | some b => Except.ok b.content
  | none => Except.error SDKErr.notFound

/-- `AzureBlobStorage.delete_file`: `delete_blob`, returning True on
success; `ResourceNotFoundError` is caught and mapped to False, while any
other exception (a transient fault) is re-raised. -/
def AzureBlobStorage.delete_file (st : AzureBlobStorage) (filename : Str) (sdkFault : Bool) :
    Except SDKErr (Bool × AzureBlobStorage) :=
  if sdkFault then Except.error SDKErr.transient
  else if (findBlob st.blobs filename).isSome then
    Except.ok (true, { st with blobs := dropBlob st.blobs filename })
  else Except.ok (false, st)

/-- `AzureBlobStorage.file_exists`: the `blob_client.exists()` probe (which
raises on a transient fault and otherwise reports presence), with every
exception caught and mapped to False. -/
def AzureBlobStorage.file_exists (st : AzureBlobStorage) (filename : Str) (sdkFault : Bool) :
    Except SDKErr Bool :=
  let probe : Except SDKErr Bool :=
    if sdkFault then Except.error SDKErr.transient
    else Except.ok (findBlob st.blobs filename).isSome
  match probe with
  | Except.ok b => Except.ok b
  | Except.error _ => Except.ok false

/-- The dictionary `AzureBlobStorage.list_files` builds for one blob: name,
blob URL, size, formatted creation time, and the content type recorded in
the blob's content settings. -/
def AzureBlobStorage.fileInfoOf (st : AzureBlobStorage) (b : AzureBlob) : FileInfo :=
  { name := b.name
    url := azureBlobUrl st b.name
    size := b.content.length
    created := strftimeYmdHMS b.creationTime
    content_type := b.contentType }

/-- `AzureBlobStorage.list_files`: every blob of the container listing, in
the backend-native order, mapped to its dictionary. -/
def AzureBlobStorage.list_files (st : AzureBlobStorage) : List FileInfo :=
  st.blobs.map st.fileInfoOf

/-- `AzureBlobStorage.get_file_url`: the blob client's canonical URL; the
`expiry_hours` parameter is accepted but no SAS token is generated. -/
def AzureBlobStorage.get_file_url (st : AzureBlobStorage) (filename : Str)
    (expiry_hours : Nat) : Str :=
  azureBlobUrl st filename

/-! ## Backend selector and health endpoint (`app.py`) -/

/-- Which backend implementation the module-level `storage` variable holds
after boot.  The constructor identity is all the health endpoint and the
fallback claims inspect. -/
inductive BackendTag where
  | aws
  | azure
  | localDisk
deriving DecidableEq

/-- The module-level boot outcome: the `storage` handle (None when even the
local backend failed to initialize) and the `storage_type_name` banner. -/
structure BootResult where
  storage : Option BackendTag
  storage_type_name : Str
deriving DecidableEq

/-- The module-level storage initialization of `app.py`: three sequential
if-blocks keyed on the mutable `STORAGE_TYPE` value.  A cloud block that
fails (any exception while constructing the client or calling
`create_container`) logs the failure and reassigns `STORAGE_TYPE = 'local'`,
which makes the final block run; a local failure leaves `storage = None`.
Each `xxxInitFails` flag injects such an exception. -/
def bootStorage (storage_type : Str) (awsInitFails azureInitFails localInitFails : Bool) :
    BootResult :=
  let step1 : Str × Option BackendTag × Str :=
    if storage_type = "aws".data then
      if awsInitFails then ("local".data, none, "Local Storage".data)
      else (storage_type, some BackendTag.aws, "AWS S3 Storage".data)
    else (storage_type, none, "Local Storage".data)
  match step1 with
  | (ty1, sto1, name1) =>
    let step2 : Str × Option BackendTag × Str :=
      if ty1 = "azure".data then
        if azureInitFails then ("local".data, sto1, name1)
        else (ty1, some BackendTag.azure, "Azure Blob Storage".data)
      else (ty1, sto1, name1)
    match step2 with
    | (ty2, sto2, name2) =>
      if ty2 = "local".data then
        if localInitFails then { storage := none, storage_type_name := name2 }
        else { storage := some BackendTag.localDisk, storage_type_name := "Local Storage".data }
      else { storage := sto2, storage_type_name := name2 }

/-- The JSON body of the `/health` endpoint. -/
structure HealthReport where
  status : Str
  storage_configured : Bool
  storage_type : Str
deriving DecidableEq

/-- The `/health` endpoint: reports whether a storage handle is present and
the active backend banner. -/
def health (b : BootResult) : HealthReport :=
  { status := "healthy".data
    storage_configured := b.storage.isSome
    storage_type := b.storage_type_name }

/-! ## Order theory of the Python string comparison -/

theorem pyStrLt_irrefl : ∀ a : Str, pyStrLt a a = false
  | [] => rfl
  | c :: cs => by simp [pyStrLt, lt_irrefl, pyStrLt_irrefl cs]

theorem pyStrLt_asymm : ∀ a b : Str, pyStrLt a b = true → pyStrLt b a = false
  | [], [] => by simp [pyStrLt]
  | [], c :: cs => by simp [pyStrLt]
  | c :: cs, [] => by simp [pyStrLt]
  | a :: as, b :: bs => by
    intro hab
    rcases lt_trichotomy a b with h | h | h
    · simp [pyStrLt, h, asymm h]
    · subst h
      simp only [pyStrLt, lt_irrefl, if_false] at hab ⊢
      exact pyStrLt_asymm as bs hab
    · simp [pyStrLt, h, asymm h] at hab

theorem pyStrLt_trans : ∀ a b c : Str,
    pyStrLt a b = true → pyStrLt b c = true → pyStrLt a c = true
  | [], [], _, hab, _ => by simp [pyStrLt] at hab
  | [], b :: bs, [], _, hbc => by simp [pyStrLt] at hbc
  | [], b :: bs, c :: cs, _, _ => by simp [pyStrLt]
  | a :: as, [], _, hab, _ => by simp [pyStrLt] at hab
  | a :: as, b :: bs, [], _, hbc => by simp [pyStrLt] at hbc
  | a :: as, b :: bs, c :: cs, hab, hbc => by
    rcases lt_trichotomy a b with h1 | h1 | h1
    · rcases lt_trichotomy b c with h2 | h2 | h2
      · simp [pyStrLt, lt_trans h1 h2]
      · subst h2; simp [pyStrLt, h1]
      · simp [pyStrLt, h2, asymm h2] at hbc
    · subst h1
      rcases lt_trichotomy a c with h2 | h2 | h2
      · simp [pyStrLt, h2]
      · subst h2
        simp only [pyStrLt, lt_irrefl, if_false] at hab hbc ⊢
        exact pyStrLt_trans as bs cs hab hbc
      · simp [pyStrLt, h2, asymm h2] at hbc
    · simp [pyStrLt, h1, asymm h1] at hab

theorem pyStrLt_connex : ∀ a b : Str, pyStrLt a b = false → pyStrLt b a = false → a = b
  | [], [], _, _ => rfl
  | [], c :: cs, h, _ => by simp [pyStrLt] at h
  | c :: cs, [], _, h => by simp [pyStrLt] at h
  | a :: as, b :: bs, h1, h2 => by
    rcases lt_trichotomy a b with h | h | h
    · simp [pyStrLt, h] at h1
    · subst h
      simp only [pyStrLt, lt_irrefl, if_false] at h1 h2
      rw [pyStrLt_connex as bs h1 h2]
    · simp [pyStrLt, h] at h2

theorem pyStrLt_false_cases (a b : Str) (h : pyStrLt a b = false) :
    a = b ∨ pyStrLt b a = true := by
  by_cases hba : pyStrLt b a = true
  · exact Or.inr hba
  · exact Or.inl (pyStrLt_connex a b h (by revert hba; cases pyStrLt b a <;> simp))

/-! ## Monotonicity of the timestamp rendering -/

theorem pyStrLt_cons_same (c : Char) (u v : Str) :
    pyStrLt (c :: u) (c :: v) = pyStrLt u v := by
  simp [pyStrLt, lt_irrefl]

theorem pyStrLt_append : ∀ a b u v : Str, a.length = b.length →
    pyStrLt (a ++ u) (b ++ v) = (pyStrLt a b || (decide (a = b) && pyStrLt u v))
  | [], [], u, v, _ => by simp [pyStrLt]
  | [], b :: bs, u, v, h => by simp at h
  | a :: as, [], u, v, h => by simp at h
  | a :: as, b :: bs, u, v, h => by
    have h' : as.length = bs.length := by simpa using h
    rcases lt_trichotomy a b with hc | hc | hc
    · simp [pyStrLt, hc]
    · subst hc
      simp only [List.cons_append, pyStrLt_cons_same, pyStrLt_append as bs u v h',
        List.cons.injEq, true_and]
    · simp [pyStrLt, hc, asymm hc, hc.ne']

set_option maxRecDepth 10000 in
theorem pad2_lt_aux : ∀ m, m < 100 → ∀ n, n < 100 →
    pyStrLt (pad2 m) (pad2 n) = decide (m < n) := by decide

set_option maxRecDepth 10000 in
theorem pad2_inj_aux : ∀ m, m < 100 → ∀ n, n < 100 → (pad2 m = pad2 n ↔ m = n) := by decide

theorem pad4_lt (m : Nat) (hm : m < 10000) (n : Nat) (hn : n < 10000) :
    pyStrLt (pad4 m) (pad4 n) = decide (m < n) := by
  have h1 : m / 100 < 100 := by omega
  have h2 : n / 100 < 100 := by omega
  have h3 : m % 100 < 100 := by omega
  have h4 : n % 100 < 100 := by omega
  unfold pad4
  rw [pyStrLt_append (pad2 (m / 100)) (pad2 (n / 100)) _ _ rfl,
    pad2_lt_aux _ h1 _ h2, pad2_lt_aux _ h3 _ h4]
  rw [Bool.eq_iff_iff]
  simp only [Bool.or_eq_true, Bool.and_eq_true, decide_eq_true_eq,
    pad2_inj_aux _ h1 _ h2]
  omega

theorem pad4_inj (m : Nat) (hm : m < 10000) (n : Nat) (hn : n < 10000) :
    pad4 m = pad4 n ↔ m = n := by
  constructor
  · intro h
    by_contra hne
    rcases Nat.lt_or_ge m n with hlt | hge
    · have hx := pad4_lt m hm n hn
      rw [h, pyStrLt_irrefl] at hx
      simp [hlt] at hx
    · have hlt : n < m := by omega
      have hx := pad4_lt n hn m hm
      rw [h, pyStrLt_irrefl] at hx
      simp [hlt] at hx
  · intro h; rw [h]

theorem pyStrLt_pad2_step (x : Nat) (hx : x < 100) (y : Nat) (hy : y < 100)
    (c : Char) (u v : Str) :
    pyStrLt (pad2 x ++ (c :: u)) (pad2 y ++ (c :: v)) =
      (decide (x < y) || (decide (x = y) && pyStrLt u v)) := by
  have hdec : decide (pad2 x = pad2 y) = decide (x = y) := by
    by_cases h : x = y
    · simp [h]
    · have h2 : ¬pad2 x = pad2 y := fun hh => h ((pad2_inj_aux _ hx _ hy).1 hh)
      simp [h, h2]
  rw [pyStrLt_append (pad2 x) (pad2 y) _ _ rfl, pad2_lt_aux _ hx _ hy, hdec,
    pyStrLt_cons_same]

theorem strftime_lt (t1 t2 : PyDateTime) (h1 : t1.InRange) (h2 : t2.InRange) :
    pyStrLt (strftimeYmdHMS t1) (strftimeYmdHMS t2) = pyDTLt t1 t2 := by
  obtain ⟨hy1, hmo1, hd1, hh1, hmi1, hs1⟩ := h1
  obtain ⟨hy2, hmo2, hd2, hh2, hmi2, hs2⟩ := h2
  have hdec : decide (pad4 t1.year = pad4 t2.year) = decide (t1.year = t2.year) := by
    by_cases h : t1.year = t2.year
    · simp [h]
    · have h2 : ¬pad4 t1.year = pad4 t2.year :=
        fun hh => h ((pad4_inj _ hy1 _ hy2).1 hh)
      simp [h, h2]
  unfold strftimeYmdHMS pyDTLt
  rw [pyStrLt_append (pad4 t1.year) (pad4 t2.year) _ _ rfl, pad4_lt _ hy1 _ hy2,
    hdec, pyStrLt_cons_same,
    pyStrLt_pad2_step _ hmo1 _ hmo2, pyStrLt_pad2_step _ hd1 _ hd2,
    pyStrLt_pad2_step _ hh1 _ hh2, pyStrLt_pad2_step _ hmi1 _ hmi2,
    pad2_lt_aux _ hs1 _ hs2]

/-! ## Lemmas about the listing order relations -/

theorem createdGE_total (a b : FileInfo) : createdGE a b ∨ createdGE b a := by
  unfold createdGE
  by_cases h : pyStrLt a.created b.created = true
  · exact Or.inr (pyStrLt_asymm _ _ h)
  · exact Or.inl (by revert h; cases pyStrLt a.created b.created <;> simp)

theorem createdGE_trans (a b c : FileInfo) (h1 : createdGE a b) (h2 : createdGE b c) :
    createdGE a c := by
  unfold createdGE at h1 h2 ⊢
  rcases pyStrLt_false_cases _ _ h1 with he | hba
  · rw [he]; exact h2
  · rcases pyStrLt_false_cases _ _ h2 with he2 | hcb
    · rw [← he2]; exact h1
    · exact pyStrLt_asymm _ _ (pyStrLt_trans _ _ _ hcb hba)

theorem createdGT_of_createdGE_of_ne (a b : FileInfo) (h : createdGE a b)
    (hne : a.created ≠ b.created) : createdGT a b := by
  unfold createdGE at h
  unfold createdGT
  rcases pyStrLt_false_cases _ _ h with he | hba
  · exact absurd he hne
  · exact hba

/-! ## Lemmas about the modelled directory operations -/

theorem entries_any_dir_eq_false (es : List DirEntry) (fn : Str)
    (hdir : ∀ e ∈ es, e.name = fn → e.isDir = false) :
    (es.any fun e => decide (e.name = fn) && e.isDir) = false := by
  rw [List.any_eq_false]
  intro e he
  by_cases h : e.name = fn
  · simp [h, hdir e he h]
  · simp [h]

theorem findEntry_writeEntry_self (es : List DirEntry) (n : Str) (c : List Nat)
    (t : PyDateTime) : findEntry (writeEntry es n c t) n = some ⟨n, false, c, t⟩ := by
  induction es with
  | nil => simp [writeEntry, findEntry]
  | cons e es ih =>
    by_cases h : e.name = n
    · simp [writeEntry, h, findEntry]
    · simp [writeEntry, h, findEntry, ih]

theorem findEntry_eq_none (es : List DirEntry) (n : Str) (h : ∀ e ∈ es, e.name ≠ n) :
    findEntry es n = none := by
  induction es with
  | nil => rfl
  | cons e es ih =>
    have h1 : e.name ≠ n := h e (by simp)
    simp only [findEntry, if_neg h1]
    exact ih fun e' he' => h e' (by simp [he'])

theorem findEntry_removeEntry_writeEntry (es : List DirEntry) (n : Str) (c : List Nat)
    (t : PyDateTime) (hnodup : (es.map DirEntry.name).Nodup) :
    findEntry (removeEntry (writeEntry es n c t) n) n = none := by
  induction es with
  | nil => simp [writeEntry, removeEntry, findEntry]
  | cons e es ih =>
    simp only [List.map_cons, List.nodup_cons] at hnodup
    obtain ⟨hnem, hnd⟩ := hnodup
    by_cases h : e.name = n
    · simp only [writeEntry, if_pos h, removeEntry, if_pos rfl]
      apply findEntry_eq_none
      intro e' he' heq
      exact hnem (h ▸ heq ▸ List.mem_map_of_mem DirEntry.name he')
    · simp only [writeEntry, if_neg h, removeEntry, if_neg h, findEntry, if_neg h]
      exact ih hnd

theorem findObject_putObject_self (os : List S3Object) (o : S3Object) :
    findObject (putObject os o) o.key = some o := by
  induction os with
  | nil => simp [putObject, findObject]
  | cons p ps ih =>
    by_cases h : p.key = o.key
    · simp [putObject, h, findObject]
    · simp [putObject, h, findObject, ih]

theorem findBlob_putBlob_self (bs : List AzureBlob) (b : AzureBlob) :
    findBlob (putBlob bs b) b.name = some b := by
  induction bs with
  | nil => simp [putBlob, findBlob]
  | cons p ps ih =>
    by_cases h : p.name = b.name
    · simp [putBlob, h, findBlob]
    · simp [putBlob, h, findBlob, ih]

/-- Shared shape lemma: when the target name is not an existing
subdirectory, `upload_file` succeeds, returns the relative URL, and its
effect on the directory is exactly `writeEntry` of the full stream
content. -/
theorem upload_file_ok (st : LocalFileStorage) (fs : FileStream) (fn : Str)
    (now : PyDateTime) (hdir : ∀ e ∈ st.entries, e.name = fn → e.isDir = false) :
    st.upload_file fs fn now =
      Except.ok (localUrl st fn,
        { st with dirExists := true, entries := writeEntry st.entries fn fs.readAll now }) := by
  have hany := entries_any_dir_eq_false st.entries fn hdir
  unfold LocalFileStorage.upload_file LocalFileStorage.create_container
  cases fs <;> simp [hany, FileStream.readAll, localUrl]

/-- Shared shape lemma: `upload_file` either fails on an existing
subdirectory or succeeds with URL and `writeEntry` effect. -/
theorem upload_file_cases (st : LocalFileStorage) (fs : FileStream) (fn : Str)
    (now : PyDateTime) :
    st.upload_file fs fn now = Except.error OSErr.isADirectory ∨
    st.upload_file fs fn now =
      Except.ok (localUrl st fn,
        { st with dirExists := true, entries := writeEntry st.entries fn fs.readAll now }) := by
  unfold LocalFileStorage.upload_file LocalFileStorage.create_container
  by_cases hc : (st.entries.any fun e => decide (e.name = fn) && e.isDir) = true
  · left; cases fs <;> simp [hc]
  · right
    cases fs <;> simp [hc, FileStream.readAll, localUrl]

/-- Shared shape lemma: downloading from a directory state whose entries are
a `writeEntry` result returns the written content. -/
theorem download_after_write (st : LocalFileStorage) (fn : Str) (b : List Nat)
    (now : PyDateTime) :
    LocalFileStorage.download_file
      { st with dirExists := true, entries := writeEntry st.entries fn b now } fn =
      Except.ok b := by
  unfold LocalFileStorage.download_file
  rw [show ({ st with dirExists := true, entries := writeEntry st.entries fn b now } :
      LocalFileStorage).entries = writeEntry st.entries fn b now from rfl]
  rw [findEntry_writeEntry_self]
  rfl

/-- C1.  Local backend round-trip fidelity: for every object name (valid in
the sense that it is not occupied by a subdirectory) and every byte
sequence, `upload_file` with the raw bytes succeeds and a subsequent
`download_file` of the same name returns exactly those bytes. -/
theorem C1_local_roundtrip (st : LocalFileStorage) (b : List Nat) (fn : Str)
    (now : PyDateTime)
    (hdir : ∀ e ∈ st.entries, e.name = fn → e.isDir = false) :
    ∃ u st', st.upload_file (FileStream.bytes b) fn now = Except.ok (u, st') ∧
      st'.download_file fn = Except.ok b :=
  ⟨localUrl st fn,
    { st with dirExists := true, entries := writeEntry st.entries fn b now },
    upload_file_ok st (FileStream.bytes b) fn now hdir,
    download_after_write st fn b now⟩

/-- C1 witness: the round trip at a concrete state and byte sequence. -/
theorem C1_local_roundtrip_witness :
    ∃ u st', LocalFileStorage.upload_file ⟨"uploads".data, "photos".data, false, []⟩
        (FileStream.bytes [255, 255, 0]) "a.png".data ⟨2024, 1, 1, 0, 0, 0⟩ =
        Except.ok (u, st') ∧
      st'.download_file "a.png".data = Except.ok [255, 255, 0] :=
  C1_local_roundtrip ⟨"uploads".data, "photos".data, false, []⟩ [255, 255, 0]
    "a.png".data ⟨2024, 1, 1, 0, 0, 0⟩ (by simp)

/-- C4.  `create_container` is idempotent for every backend: for the local
directory, the S3 bucket and the Azure container alike, the first call
returns True, the second call returns True and leaves the state exactly as
the first call left it, and neither call touches the stored objects. -/
theorem C4_create_container_idempotent (stL : LocalFileStorage) (stA : AWSS3Storage)
    (stZ : AzureBlobStorage) :
    ((stL.create_container).1 = true ∧
      ((stL.create_container).2).create_container = (true, (stL.create_container).2) ∧
      ((stL.create_container).2).entries = stL.entries) ∧
    ((stA.create_container).1 = true ∧
      ((stA.create_container).2).create_container = (true, (stA.create_container).2) ∧
      ((stA.create_container).2).objects = stA.objects) ∧
    ((stZ.create_container).1 = true ∧
      ((stZ.create_container).2).create_container = (true, (stZ.create_container).2) ∧
      ((stZ.create_container).2).blobs = stZ.blobs) := by
  refine ⟨⟨rfl, rfl, rfl⟩, ⟨?_, ?_, ?_⟩, ⟨?_, ?_, ?_⟩⟩
  · by_cases h : stA.bucketExists <;> simp [AWSS3Storage.create_container, h]
  · by_cases h : stA.bucketExists <;> simp [AWSS3Storage.create_container, h]
  · by_cases h : stA.bucketExists <;> simp [AWSS3Storage.create_container, h]
  · by_cases h : stZ.containerExists <;> simp [AzureBlobStorage.create_container, h]
  · by_cases h : stZ.containerExists <;> simp [AzureBlobStorage.create_container, h]
  · by_cases h : stZ.containerExists <;> simp [AzureBlobStorage.create_container, h]

/-- C7.  Local backend delete semantics: after an upload of a name, deleting
that name returns True and a subsequent `file_exists` returns False; and
deleting a name with no stored object returns False without raising. -/
theorem C7_local_delete_semantics (st : LocalFileStorage) (fn : Str) (b : List Nat)
    (now : PyDateTime)
    (hnodup : (st.entries.map DirEntry.name).Nodup)
    (hdir : ∀ e ∈ st.entries, e.name = fn → e.isDir = false) :
    (∃ u st1 st2, st.upload_file (FileStream.bytes b) fn now = Except.ok (u, st1) ∧
      st1.delete_file fn = Except.ok (true, st2) ∧ st2.file_exists fn = false) ∧
    (st.file_exists fn = false → st.delete_file fn = Except.ok (false, st)) := by
  constructor
  · refine ⟨localUrl st fn, { st with dirExists := true, entries := writeEntry st.entries fn b now }, { st with dirExists := true, entries := removeEntry (writeEntry st.entries fn b now) fn }, upload_file_ok st (FileStream.bytes b) fn now hdir, ?_, ?_⟩
    · unfold LocalFileStorage.delete_file
      rw [show ({ st with dirExists := true, entries := writeEntry st.entries fn b now } : LocalFileStorage).entries = writeEntry st.entries fn b now from rfl]
      rw [findEntry_writeEntry_self]
      rfl
    · unfold LocalFileStorage.file_exists
      rw [show ({ st with dirExists := true, entries := removeEntry (writeEntry st.entries fn b now) fn } : LocalFileStorage).entries = removeEntry (writeEntry st.entries fn b now) fn from rfl]
      rw [findEntry_removeEntry_writeEntry st.entries fn b now hnodup]
      rfl
  · intro hex
    unfold LocalFileStorage.file_exists at hex
    unfold LocalFileStorage.delete_file
    cases hfind : findEntry st.entries fn with
    | none => rfl
    | some e => rw [hfind] at hex; simp at hex

/-- C7 witness: delete-after-upload and delete-of-absent at a concrete
state. -/
theorem C7_local_delete_semantics_witness :
    (∃ u st1 st2, LocalFileStorage.upload_file ⟨"uploads".data, "photos".data, true, []⟩
        (FileStream.bytes [9]) "p.jpg".data ⟨2024, 2, 2, 2, 2, 2⟩ = Except.ok (u, st1) ∧
      st1.delete_file "p.jpg".data = Except.ok (true, st2) ∧
      st2.file_exists "p.jpg".data = false) ∧
    (LocalFileStorage.file_exists ⟨"uploads".data, "photos".data, true, []⟩ "p.jpg".data =
        false →
      LocalFileStorage.delete_file ⟨"uploads".data, "photos".data, true, []⟩ "p.jpg".data =
        Except.ok (false, ⟨"uploads".data, "photos".data, true, []⟩)) :=
  C7_local_delete_semantics ⟨"uploads".data, "photos".data, true, []⟩ "p.jpg".data [9]
    ⟨2024, 2, 2, 2, 2, 2⟩ (by simp) (by simp)

/-- C9.  The local backend's `get_file_url` is a pure function of the
filename and the configured paths: its result does not depend on the
`expiry_hours` argument at all, and it coincides with the URL string
`upload_file` returns for the same filename. -/
theorem C9_get_file_url_pure (st : LocalFileStorage) (fn : Str) (e1 e2 : Nat)
    (fs : FileStream) (now : PyDateTime) :
    st.get_file_url fn e1 = st.get_file_url fn e2 ∧
    (∀ u st', st.upload_file fs fn now = Except.ok (u, st') →
      u = st.get_file_url fn e1) := by
  refine ⟨rfl, ?_⟩
  intro u st' h
  rcases upload_file_cases st fs fn now with hcase | hcase
  · rw [hcase] at h; cases h
  · rw [hcase] at h
    simp only [Except.ok.injEq, Prod.mk.injEq] at h
    exact h.1.symm

/-- C9 witness: equality of URLs at a concrete state, filename and two
distinct expiry values. -/
theorem C9_get_file_url_pure_witness :
    LocalFileStorage.get_file_url ⟨"uploads".data, "photos".data, true, []⟩ "a.png".data 24 =
      LocalFileStorage.get_file_url ⟨"uploads".data, "photos".data, true, []⟩ "a.png".data 9999 ∧
    (∀ u st', LocalFileStorage.upload_file ⟨"uploads".data, "photos".data, true, []⟩
        (FileStream.bytes [1]) "a.png".data ⟨2024, 1, 1, 0, 0, 0⟩ = Except.ok (u, st') →
      u = LocalFileStorage.get_file_url ⟨"uploads".data, "photos".data, true, []⟩
        "a.png".data 24) :=
  C9_get_file_url_pure ⟨"uploads".data, "photos".data, true, []⟩ "a.png".data 24 9999
    (FileStream.bytes [1]) ⟨2024, 1, 1, 0, 0, 0⟩

/-- C10.  The two call shapes of the local `upload_file` are equivalent: for
every byte sequence, uploading the raw bytes and uploading a stream with
that content produce identical results (same URL, same stored state), and a
subsequent download returns the bytes. -/
theorem C10_stream_bytes_equivalent (st : LocalFileStorage) (b : List Nat) (fn : Str)
    (now : PyDateTime)
    (hdir : ∀ e ∈ st.entries, e.name = fn → e.isDir = false) :
    st.upload_file (FileStream.stream b) fn now =
      st.upload_file (FileStream.bytes b) fn now ∧
    ∃ u st', st.upload_file (FileStream.stream b) fn now = Except.ok (u, st') ∧
      st'.download_file fn = Except.ok b := by
  have h1 := upload_file_ok st (FileStream.stream b) fn now hdir
  have h2 := upload_file_ok st (FileStream.bytes b) fn now hdir
  refine ⟨?_, localUrl st fn,
    { st with dirExists := true, entries := writeEntry st.entries fn b now }, h1,
    download_after_write st fn b now⟩
  rw [h1, h2]
  rfl

/-- C10 witness: stream/bytes equivalence at a concrete state and content. -/
theorem C10_stream_bytes_equivalent_witness :
    LocalFileStorage.upload_file ⟨"uploads".data, "photos".data, true, []⟩
        (FileStream.stream [7, 8]) "b.gif".data ⟨2024, 3, 3, 3, 3, 3⟩ =
      LocalFileStorage.upload_file ⟨"uploads".data, "photos".data, true, []⟩
        (FileStream.bytes [7, 8]) "b.gif".data ⟨2024, 3, 3, 3, 3, 3⟩ ∧
    ∃ u st', LocalFileStorage.upload_file ⟨"uploads".data, "photos".data, true, []⟩
        (FileStream.stream [7, 8]) "b.gif".data ⟨2024, 3, 3, 3, 3, 3⟩ = Except.ok (u, st') ∧
      st'.download_file "b.gif".data = Except.ok [7, 8] :=
  C10_stream_bytes_equivalent ⟨"uploads".data, "photos".data, true, []⟩ [7, 8]
    "b.gif".data ⟨2024, 3, 3, 3, 3, 3⟩ (by simp)

/-- C2.  Backend selector fallback: when the preferred backend is a cloud
backend (aws or azure) and its construction or `create_container` raises,
the selector falls back to the local backend (here initializing without
fault), and `/health` afterwards reports a present storage handle and the
local backend banner. -/
theorem C2_cloud_fallback_to_local (storage_type : Str) (awsInitFails azureInitFails : Bool)
    (hcloud : (storage_type = "aws".data ∧ awsInitFails = true) ∨
      (storage_type = "azure".data ∧ azureInitFails = true)) :
    health (bootStorage storage_type awsInitFails azureInitFails false) =
      { status := "healthy".data, storage_configured := true,
        storage_type := "Local Storage".data } ∧
    (bootStorage storage_type awsInitFails azureInitFails false).storage =
      some BackendTag.localDisk := by
  rcases hcloud with ⟨h1, h2⟩ | ⟨h1, h2⟩ <;> subst h1 <;> subst h2
  · cases azureInitFails <;> exact ⟨by decide, by decide⟩
  · cases awsInitFails <;> exact ⟨by decide, by decide⟩

/-- C2 witness: an aws-preferred boot whose cloud initialization raises. -/
theorem C2_cloud_fallback_to_local_witness :
    health (bootStorage "aws".data true false false) =
      { status := "healthy".data, storage_configured := true,
        storage_type := "Local Storage".data } ∧
    (bootStorage "aws".data true false false).storage = some BackendTag.localDisk :=
  C2_cloud_fallback_to_local "aws".data true false (Or.inl ⟨rfl, rfl⟩)

/-- C3 counterexample: at a concrete bucket/container state holding the
object and with a transient (non-not-found) probe error injected, both cloud
`file_exists` implementations return `Ok false`; neither re-raises the
error, contradicting the claimed re-raise behaviour. -/
theorem C3_counterexample :
    (AWSS3Storage.file_exists ⟨"photos".data, "us-east-1".data, true, true, true, [⟨"a.png".data, [1, 2], "image/png".data, "max-age=31536000".data, ⟨2024, 1, 1, 0, 0, 0⟩⟩]⟩ "a.png".data true = Except.ok false ∧
      ¬AWSS3Storage.file_exists ⟨"photos".data, "us-east-1".data, true, true, true, [⟨"a.png".data, [1, 2], "image/png".data, "max-age=31536000".data, ⟨2024, 1, 1, 0, 0, 0⟩⟩]⟩ "a.png".data true = Except.error SDKErr.transient) ∧
    (AzureBlobStorage.file_exists ⟨"photos".data, "https://acct.blob.core.windows.net/photos".data, true, [⟨"a.png".data, [1, 2], "image/png".data, ⟨2024, 1, 1, 0, 0, 0⟩⟩]⟩ "a.png".data true = Except.ok false ∧
      ¬AzureBlobStorage.file_exists ⟨"photos".data, "https://acct.blob.core.windows.net/photos".data, true, [⟨"a.png".data, [1, 2], "image/png".data, ⟨2024, 1, 1, 0, 0, 0⟩⟩]⟩ "a.png".data true = Except.error SDKErr.transient) := by
  decide

/-- C3 (amended).  Cloud `file_exists` never re-raises: for every state,
name and probe outcome, both cloud implementations return normally —
any probe error (transient or the backend not-found condition) is caught
and mapped to the return value False, and in the fault-free case the result
reports presence of the object. -/
theorem C3_cloud_exists_swallows_errors (stA : AWSS3Storage) (stZ : AzureBlobStorage)
    (fn : Str) (sdkFault : Bool) :
    stA.file_exists fn sdkFault =
      Except.ok (!sdkFault && (findObject stA.objects fn).isSome) ∧
    stZ.file_exists fn sdkFault =
      Except.ok (!sdkFault && (findBlob stZ.blobs fn).isSome) := by
  constructor
  · unfold AWSS3Storage.file_exists AWSS3Storage.head_object
    cases sdkFault
    · cases h : (findObject stA.objects fn).isSome <;> simp [h]
    · simp
  · unfold AzureBlobStorage.file_exists
    cases sdkFault <;> simp

/-- C6.  Cloud delete divergence on an absent object: the AWS delete either
re-raises the SDK failure or returns True — it can never return False —
while the Azure delete maps the not-found condition to the return value
False without raising. -/
theorem C6_cloud_delete_absent (stA : AWSS3Storage) (stZ : AzureBlobStorage) (fn : Str)
    (hA : findObject stA.objects fn = none) (hZ : findBlob stZ.blobs fn = none) :
    (∀ sdkFault, stA.delete_file fn sdkFault = Except.error SDKErr.transient ∨
      ∃ st', stA.delete_file fn sdkFault = Except.ok (true, st')) ∧
    (∀ sdkFault r st', stA.delete_file fn sdkFault = Except.ok (r, st') → r = true) ∧
    stZ.delete_file fn false = Except.ok (false, stZ) := by
  refine ⟨?_, ?_, ?_⟩
  · intro f
    cases f
    · exact Or.inr ⟨_, rfl⟩
    · exact Or.inl rfl
  · intro f r st' h
    cases f
    · simp only [AWSS3Storage.delete_file, Bool.false_eq_true, if_false,
        Except.ok.injEq, Prod.mk.injEq] at h
      exact h.1.symm
    · simp [AWSS3Storage.delete_file] at h
  · simp [AzureBlobStorage.delete_file, hZ]

/-- C6 witness: deletion of an absent name at concrete empty bucket and
container states. -/
theorem C6_cloud_delete_absent_witness :
    (∀ sdkFault, AWSS3Storage.delete_file ⟨"photos".data, "us-east-1".data, true, true, true, []⟩ "a.png".data sdkFault = Except.error SDKErr.transient ∨
      ∃ st', AWSS3Storage.delete_file ⟨"photos".data, "us-east-1".data, true, true, true, []⟩ "a.png".data sdkFault = Except.ok (true, st')) ∧
    (∀ sdkFault r st', AWSS3Storage.delete_file ⟨"photos".data, "us-east-1".data, true, true, true, []⟩ "a.png".data sdkFault = Except.ok (r, st') → r = true) ∧
    AzureBlobStorage.delete_file ⟨"photos".data, "u".data, true, []⟩ "a.png".data false =
      Except.ok (false, ⟨"photos".data, "u".data, true, []⟩) :=
  C6_cloud_delete_absent ⟨"photos".data, "us-east-1".data, true, true, true, []⟩
    ⟨"photos".data, "u".data, true, []⟩ "a.png".data rfl rfl

/-- C8 counterexample: the AWS listing does not derive the reported content
type from the filename extension — at a concrete bucket holding `a.png`
(whose table-derived type is `image/png`), the listing reports the constant
`image/*`. -/
theorem C8_counterexample :
    (AWSS3Storage.list_files ⟨"photos".data, "us-east-1".data, true, true, true, [⟨"a.png".data, [1, 2], "image/png".data, "max-age=31536000".data, ⟨2024, 1, 1, 0, 0, 0⟩⟩]⟩).map FileInfo.content_type = ["image/*".data] ∧
    contentTypeFor "a.png".data = "image/png".data ∧
    "image/*".data ≠ "image/png".data := by
  decide

/-- C8 (amended).  Content-type inference: the MIME type attached at upload
is derived from the filename extension via the lookup table (with the
`application/octet-stream` default) for both cloud backends, and the local
listing derives its reported `content_type` the same way; however the AWS
listing reports the constant `image/*` for every object, and the Azure
listing reports the content type stored in each blob's metadata rather than
re-deriving it. -/
theorem C8_content_type_inference (stA : AWSS3Storage) (stZ : AzureBlobStorage)
    (stL : LocalFileStorage) (fs : FileStream) (fn : Str) (now : PyDateTime) :
    findObject ((stA.upload_file fs fn now).2).objects fn =
      some ⟨fn, fs.readAll, contentTypeFor fn, "max-age=31536000".data, now⟩ ∧
    findBlob ((stZ.upload_file fs fn now).2).blobs fn =
      some ⟨fn, fs.readAll, contentTypeFor fn, now⟩ ∧
    (∀ info ∈ stL.list_files, info.content_type = contentTypeFor info.name) ∧
    (stA.list_files).map FileInfo.content_type =
      stA.objects.map (fun _ => "image/*".data) ∧
    (stZ.list_files).map FileInfo.content_type = stZ.blobs.map AzureBlob.contentType := by
  refine ⟨?_, ?_, ?_, ?_, ?_⟩
  · exact findObject_putObject_self stA.objects _
  · exact findBlob_putBlob_self stZ.blobs _
  · intro info hmem
    unfold LocalFileStorage.list_files at hmem
    by_cases hd : stL.dirExists = false
    · simp [hd] at hmem
    · rw [if_neg hd] at hmem
      rw [(List.perm_insertionSort createdGE _).mem_iff] at hmem
      obtain ⟨e, he, rfl⟩ := List.mem_map.1 hmem
      rfl
  · simp only [AWSS3Storage.list_files, List.map_map]
    rfl
  · simp only [AzureBlobStorage.list_files, List.map_map]
    rfl

/-- C8 (amended) witness: the inference facts at a concrete state for each
backend, including a concrete member of the local listing. -/
theorem C8_content_type_inference_witness :
    findObject ((AWSS3Storage.upload_file ⟨"photos".data, "us-east-1".data, true, true, true, []⟩ (FileStream.bytes [1]) "a.png".data ⟨2024, 1, 1, 0, 0, 0⟩).2).objects "a.png".data =
      some ⟨"a.png".data, [1], contentTypeFor "a.png".data, "max-age=31536000".data, ⟨2024, 1, 1, 0, 0, 0⟩⟩ ∧
    findBlob ((AzureBlobStorage.upload_file ⟨"photos".data, "u".data, true, []⟩ (FileStream.bytes [1]) "a.png".data ⟨2024, 1, 1, 0, 0, 0⟩).2).blobs "a.png".data =
      some ⟨"a.png".data, [1], contentTypeFor "a.png".data, ⟨2024, 1, 1, 0, 0, 0⟩⟩ ∧
    (∀ info ∈ LocalFileStorage.list_files ⟨"uploads".data, "photos".data, true, [⟨"a.png".data, false, [1], ⟨2024, 1, 1, 0, 0, 0⟩⟩]⟩, info.content_type = contentTypeFor info.name) ∧
    (AWSS3Storage.list_files ⟨"photos".data, "us-east-1".data, true, true, true, []⟩).map FileInfo.content_type = ([] : List S3Object).map (fun _ => "image/*".data) ∧
    (AzureBlobStorage.list_files ⟨"photos".data, "u".data, true, []⟩).map FileInfo.content_type = ([] : List AzureBlob).map AzureBlob.contentType :=
  C8_content_type_inference ⟨"photos".data, "us-east-1".data, true, true, true, []⟩
    ⟨"photos".data, "u".data, true, []⟩
    ⟨"uploads".data, "photos".data, true, [⟨"a.png".data, false, [1], ⟨2024, 1, 1, 0, 0, 0⟩⟩]⟩
    (FileStream.bytes [1]) "a.png".data ⟨2024, 1, 1, 0, 0, 0⟩

/-- C5.  Local backend list ordering: when the managed directory holds
exactly three files (in any enumeration order) whose creation times are
t1 < t2 < t3, `list_files` returns their dictionaries newest first:
the t3 file, then the t2 file, then the t1 file. -/
theorem C5_local_list_newest_first (st : LocalFileStorage) (e1 e2 e3 : DirEntry)
    (hdir : st.dirExists = true)
    (hperm : st.entries.Perm [e1, e2, e3])
    (hd1 : e1.isDir = false) (hd2 : e2.isDir = false) (hd3 : e3.isDir = false)
    (hr1 : e1.created.InRange) (hr2 : e2.created.InRange) (hr3 : e3.created.InRange)
    (h12 : pyDTLt e1.created e2.created = true)
    (h23 : pyDTLt e2.created e3.created = true) :
    st.list_files = [st.fileInfoOf e3, st.fileInfoOf e2, st.fileInfoOf e1] := by
  have hk12 : pyStrLt (strftimeYmdHMS e1.created) (strftimeYmdHMS e2.created) = true := by
    rw [strftime_lt _ _ hr1 hr2]; exact h12
  have hk23 : pyStrLt (strftimeYmdHMS e2.created) (strftimeYmdHMS e3.created) = true := by
    rw [strftime_lt _ _ hr2 hr3]; exact h23
  have hk13 : pyStrLt (strftimeYmdHMS e1.created) (strftimeYmdHMS e3.created) = true :=
    pyStrLt_trans _ _ _ hk12 hk23
  have hne12 : (st.fileInfoOf e1).created ≠ (st.fileInfoOf e2).created := by
    intro h
    have h' : strftimeYmdHMS e1.created = strftimeYmdHMS e2.created := h
    rw [h', pyStrLt_irrefl] at hk12
    cases hk12
  have hne13 : (st.fileInfoOf e1).created ≠ (st.fileInfoOf e3).created := by
    intro h
    have h' : strftimeYmdHMS e1.created = strftimeYmdHMS e3.created := h
    rw [h', pyStrLt_irrefl] at hk13
    cases hk13
  have hne23 : (st.fileInfoOf e2).created ≠ (st.fileInfoOf e3).created := by
    intro h
    have h' : strftimeYmdHMS e2.created = strftimeYmdHMS e3.created := h
    rw [h', pyStrLt_irrefl] at hk23
    cases hk23
  have hfilter : List.filter (fun e => !e.isDir) [e1, e2, e3] = [e1, e2, e3] := by
    simp [List.filter, hd1, hd2, hd3]
  have hpermL : (st.entries.filter (fun e => !e.isDir)).Perm [e1, e2, e3] := by
    have h := hperm.filter (fun e => !e.isDir)
    rwa [hfilter] at h
  have hpermM : ((st.entries.filter (fun e => !e.isDir)).map st.fileInfoOf).Perm
      [st.fileInfoOf e1, st.fileInfoOf e2, st.fileInfoOf e3] := by
    simpa using hpermL.map st.fileInfoOf
  have hpermS : (List.insertionSort createdGE
      ((st.entries.filter (fun e => !e.isDir)).map st.fileInfoOf)).Perm
      [st.fileInfoOf e3, st.fileInfoOf e2, st.fileInfoOf e1] :=
    ((List.perm_insertionSort createdGE _).trans hpermM).trans
      (List.reverse_perm [st.fileInfoOf e1, st.fileInfoOf e2, st.fileInfoOf e3]).symm
  haveI instTot : IsTotal FileInfo createdGE := ⟨createdGE_total⟩
  haveI instTrans : IsTrans FileInfo createdGE := ⟨createdGE_trans⟩
  haveI instAnti : IsAntisymm FileInfo createdGT :=
    ⟨fun a b h1 h2 => absurd h2 (by simp [createdGT, pyStrLt_asymm _ _ h1])⟩
  have hsorted : List.Sorted createdGE (List.insertionSort createdGE
      ((st.entries.filter (fun e => !e.isDir)).map st.fileInfoOf)) :=
    List.sorted_insertionSort createdGE _
  have hpairNeRHS : List.Pairwise (fun a b : FileInfo => a.created ≠ b.created)
      [st.fileInfoOf e3, st.fileInfoOf e2, st.fileInfoOf e1] := by
    refine List.Pairwise.cons ?_ (List.Pairwise.cons ?_
      (List.Pairwise.cons (by simp) List.Pairwise.nil))
    · intro b hb
      rcases List.mem_cons.1 hb with rfl | hb'
      · exact fun h => hne23 h.symm
      · rcases List.mem_cons.1 hb' with rfl | hb''
        · exact fun h => hne13 h.symm
        · simp at hb''
    · intro b hb
      rcases List.mem_cons.1 hb with rfl | hb'
      · exact fun h => hne12 h.symm
      · simp at hb'
  have hpairNe : List.Pairwise (fun a b : FileInfo => a.created ≠ b.created)
      (List.insertionSort createdGE
        ((st.entries.filter (fun e => !e.isDir)).map st.fileInfoOf)) :=
    (List.Perm.pairwise_iff (fun h => Ne.symm h) hpermS).2 hpairNeRHS
  have hsortedGT : List.Sorted createdGT (List.insertionSort createdGE
      ((st.entries.filter (fun e => !e.isDir)).map st.fileInfoOf)) :=
    (List.Pairwise.and hsorted hpairNe).imp
      (fun hab => createdGT_of_createdGE_of_ne _ _ hab.1 hab.2)
  have hsortedRHS : List.Sorted createdGT
      [st.fileInfoOf e3, st.fileInfoOf e2, st.fileInfoOf e1] := by
    refine List.Pairwise.cons ?_ (List.Pairwise.cons ?_
      (List.Pairwise.cons (by simp) List.Pairwise.nil))
    · intro b hb
      rcases List.mem_cons.1 hb with rfl | hb'
      · exact hk23
      · rcases List.mem_cons.1 hb' with rfl | hb''
        · exact hk13
        · simp at hb''
    · intro b hb
      rcases List.mem_cons.1 hb with rfl | hb'
      · exact hk12
      · simp at hb'
  have hmain := List.eq_of_perm_of_sorted hpermS hsortedGT hsortedRHS
  unfold LocalFileStorage.list_files
  rw [hdir]
  rw [if_neg (by simp)]
  exact hmain

/-- C5 witness: three concrete files enumerated out of order are listed
newest first. -/
theorem C5_local_list_newest_first_witness :
    LocalFileStorage.list_files ⟨"uploads".data, "photos".data, true, [⟨"b.jpg".data, false, [2], ⟨2024, 1, 1, 0, 0, 0⟩⟩, ⟨"c.gif".data, false, [3, 3], ⟨2024, 6, 15, 12, 30, 0⟩⟩, ⟨"a.png".data, false, [1], ⟨2023, 12, 31, 23, 59, 59⟩⟩]⟩ =
      [LocalFileStorage.fileInfoOf ⟨"uploads".data, "photos".data, true, [⟨"b.jpg".data, false, [2], ⟨2024, 1, 1, 0, 0, 0⟩⟩, ⟨"c.gif".data, false, [3, 3], ⟨2024, 6, 15, 12, 30, 0⟩⟩, ⟨"a.png".data, false, [1], ⟨2023, 12, 31, 23, 59, 59⟩⟩]⟩ ⟨"c.gif".data, false, [3, 3], ⟨2024, 6, 15, 12, 30, 0⟩⟩,
       LocalFileStorage.fileInfoOf ⟨"uploads".data, "photos".data, true, [⟨"b.jpg".data, false, [2], ⟨2024, 1, 1, 0, 0, 0⟩⟩, ⟨"c.gif".data, false, [3, 3], ⟨2024, 6, 15, 12, 30, 0⟩⟩, ⟨"a.png".data, false, [1], ⟨2023, 12, 31, 23, 59, 59⟩⟩]⟩ ⟨"b.jpg".data, false, [2], ⟨2024, 1, 1, 0, 0, 0⟩⟩,
       LocalFileStorage.fileInfoOf ⟨"uploads".data, "photos".data, true, [⟨"b.jpg".data, false, [2], ⟨2024, 1, 1, 0, 0, 0⟩⟩, ⟨"c.gif".data, false, [3, 3], ⟨2024, 6, 15, 12, 30, 0⟩⟩, ⟨"a.png".data, false, [1], ⟨2023, 12, 31, 23, 59, 59⟩⟩]⟩ ⟨"a.png".data, false, [1], ⟨2023, 12, 31, 23, 59, 59⟩⟩] :=
  C5_local_list_newest_first
    ⟨"uploads".data, "photos".data, true, [⟨"b.jpg".data, false, [2], ⟨2024, 1, 1, 0, 0, 0⟩⟩, ⟨"c.gif".data, false, [3, 3], ⟨2024, 6, 15, 12, 30, 0⟩⟩, ⟨"a.png".data, false, [1], ⟨2023, 12, 31, 23, 59, 59⟩⟩]⟩
    ⟨"a.png".data, false, [1], ⟨2023, 12, 31, 23, 59, 59⟩⟩
    ⟨"b.jpg".data, false, [2], ⟨2024, 1, 1, 0, 0, 0⟩⟩
    ⟨"c.gif".data, false, [3, 3], ⟨2024, 6, 15, 12, 30, 0⟩⟩
    rfl (by decide) rfl rfl rfl (by decide) (by decide) (by decide) (by decide) (by decide)

-- Concrete sanity evaluations of the embedded operations.
example : pyStrLt "abc".data "abd".data = true := by decide

example : strftimeYmdHMS ⟨2024, 3, 7, 9, 5, 30⟩ = "2024-03-07 09:05:30".data := by decide

example : contentTypeFor "a.png".data = "image/png".data := by decide

example : contentTypeFor "A.PNG".data = "image/png".data := by decide

example : contentTypeFor "archive.xyz".data = "application/octet-stream".data := by decide

example : contentTypeFor ".bashrc".data = "application/octet-stream".data := by decide

example :
    (LocalFileStorage.upload_file ⟨"uploads".data, "photos".data, false, []⟩
        (FileStream.bytes [255, 0, 17]) "a.png".data ⟨2024, 1, 1, 0, 0, 0⟩).map
      (fun r => (r.1, r.2.entries.map DirEntry.name)) =
    Except.ok ("/uploads/photos/a.png".data, ["a.png".data]) := by decide

example :
    LocalFileStorage.download_file
      ⟨"uploads".data, "photos".data, true, [⟨"a.png".data, false, [1, 2], ⟨2024, 1, 1, 0, 0, 0⟩⟩]⟩
      "a.png".data = Except.ok [1, 2] := by decide

example :
    (LocalFileStorage.list_files
      ⟨"uploads".data, "photos".data, true,
        [⟨"old.png".data, false, [1], ⟨2023, 5, 1, 12, 0, 0⟩⟩,
         ⟨"new.png".data, false, [2, 3], ⟨2024, 5, 1, 12, 0, 0⟩⟩]⟩).map FileInfo.name =
    ["new.png".data, "old.png".data] := by decide

example :
    bootStorage "aws".data true false false =
      { storage := some BackendTag.localDisk, storage_type_name := "Local Storage".data } := by
  decide

example :
    bootStorage "azure".data false false false =
      { storage := some BackendTag.azure, storage_type_name := "Azure Blob Storage".data } := by
  decide

example :
    (AWSS3Storage.file_exists ⟨"photos".data, "us-east-1".data, true, true, true, []⟩
      "a.png".data false) = Except.ok false := by decide
